import Mathlib

/-!
Verification development for a browser chat client (React + Gemini API).
The data model (src/types.ts), the request formatter and service wrapper
(src/services/geminiService.ts), and the two variants of the application
component (src/App.tsx) are shallowly embedded below.  Stateful React code
is embedded as explicit state passing over an `AppState` record, with the
asynchronous send handler split at its single `await` point into a start
function (everything before the AI call resolves) and a finish function
(the `then`/`catch`/`finally` continuation).  The JavaScript number type
is embedded as `Int` (all numbers the app produces are integers from
`Date.now()`), and `JSON.stringify`/`JSON.parse` are embedded at the JSON
value level by an explicit `Json` syntax tree.
-/

/-- Embeds `enum Role` from src/types.ts. -/
inductive Role where
  | USER
  | MODEL
deriving DecidableEq

/-- Embeds `interface Attachment` from src/types.ts. -/
structure Attachment where
  name : String
  mimeType : String
  data : String
  previewUrl : String
deriving DecidableEq

/-- Embeds `interface Message` from src/types.ts.  The `attachments?`
field is optional in TypeScript, embedded as `Option`. -/
structure Message where
  id : String
  role : Role
  text : String
  attachments : Option (List Attachment)
  timestamp : Int
deriving DecidableEq

/-- JSON value syntax tree, the image of `JSON.stringify` and the result
of `JSON.parse` for the values this app stores. -/
inductive Json where
  | null
  | bool (b : Bool)
  | num (n : Int)
  | str (s : String)
  | arr (items : List Json)
  | obj (fields : List (String × Json))

/-- Property lookup on a parsed JSON object, as JavaScript property
access performs it on the result of `JSON.parse`. -/
def getField : List (String × Json) → String → Option Json
  | [], _ => none
  | (k, v) :: rest, key => if key = k then some v else getField rest key

/-- `JSON.stringify` on a `Role` enum value writes its string value. -/
def encodeRole : Role → Json
  | Role.USER => Json.str "user"
  | Role.MODEL => Json.str "model"

/-- Reinterpreting a parsed JSON value as a `Role`: the cast in
`JSON.parse(saved)` keeps the stored enum string. -/
def decodeRole : Json → Option Role
  | Json.str s =>
      if s = "user" then some Role.USER
      else if s = "model" then some Role.MODEL
      else none
  | _ => none

/-- `JSON.stringify` of one attachment object (field creation order as in
`handleFileUpload` in src/App.tsx). -/
def encodeAttachment (a : Attachment) : Json :=
  Json.obj [("name", Json.str a.name), ("mimeType", Json.str a.mimeType),
            ("data", Json.str a.data), ("previewUrl", Json.str a.previewUrl)]

/-- Reinterpreting a parsed JSON value as an `Attachment`. -/
def decodeAttachment (j : Json) : Option Attachment :=
  match j with
  | Json.obj fields =>
    match getField fields "name", getField fields "mimeType",
          getField fields "data", getField fields "previewUrl" with
    | some (Json.str n), some (Json.str m), some (Json.str d), some (Json.str p) =>
        some { name := n, mimeType := m, data := d, previewUrl := p }
    | _, _, _, _ => none
  | _ => none

/-- Reinterpreting a parsed JSON array as an attachment list. -/
def decodeAttachments : List Json → Option (List Attachment)
  | [] => some []
  | j :: rest =>
    match decodeAttachment j, decodeAttachments rest with
    | some a, some tl => some (a :: tl)
    | _, _ => none

/-- `JSON.stringify` of one message object.  A message built without an
`attachments` field (the welcome messages) serializes without that key,
since `JSON.stringify` omits `undefined` properties; messages built by
`handleSendMessage` carry the field.  Property order follows the object
literals in src/App.tsx. -/
def encodeMessage (m : Message) : Json :=
  match m.attachments with
  | none =>
      Json.obj [("id", Json.str m.id), ("role", encodeRole m.role),
                ("text", Json.str m.text), ("timestamp", Json.num m.timestamp)]
  | some atts =>
      Json.obj [("id", Json.str m.id), ("role", encodeRole m.role),
                ("text", Json.str m.text),
                ("attachments", Json.arr (atts.map encodeAttachment)),
                ("timestamp", Json.num m.timestamp)]

/-- Reinterpreting a parsed JSON value as a `Message` (the untyped cast
performed by the initializer in src/App.tsx, made explicit). -/
def decodeMessage (j : Json) : Option Message :=
  match j with
  | Json.obj fields =>
    match getField fields "id", getField fields "role",
          getField fields "text", getField fields "timestamp" with
    | some (Json.str i), some rj, some (Json.str t), some (Json.num ts) =>
      match decodeRole rj with
      | some r =>
        match getField fields "attachments" with
        | none => some { id := i, role := r, text := t, attachments := none, timestamp := ts }
        | some (Json.arr items) =>
          match decodeAttachments items with
          | some atts =>
              some { id := i, role := r, text := t, attachments := some atts, timestamp := ts }
          | none => none
        | some _ => none
      | none => none
    | _, _, _, _ => none
  | _ => none

/-- `JSON.stringify(messages)`: the stored JSON value for the history key
(the persistence effect in src/App.tsx writes it on every change). -/
def encodeMessages (msgs : List Message) : Json :=
  Json.arr (msgs.map encodeMessage)

/-- Reinterpreting the parsed stored value as the message list state. -/
def decodeMessages (j : Json) : Option (List Message) :=
  match j with
  | Json.arr items => decodeMessagesList items
  | _ => none
where
  decodeMessagesList : List Json → Option (List Message)
  | [] => some []
  | j :: rest =>
    match decodeMessage j, decodeMessagesList rest with
    | some m, some tl => some (m :: tl)
    | _, _ => none

namespace Gemini

/-- Embeds `Part` from the genai API surface as used in
src/services/geminiService.ts: a part is either a text part or an
inline-data part.  Namespaced because Mathlib already declares `Part`. -/
inductive Part where
  | text (s : String)
  | inlineData (mimeType : String) (data : String)
deriving DecidableEq

/-- Embeds `Content` from the genai API surface as used in
src/services/geminiService.ts. -/
structure Content where
  role : String
  parts : List Part
deriving DecidableEq

end Gemini

/-- Embeds `formatMessageToContent` from src/services/geminiService.ts.
The JavaScript truthiness test `if (msg.text)` is a nonemptiness test on
the string, and `msg.attachments && msg.attachments.length > 0` guards
both an absent field and an empty list. -/
def formatMessageToContent (msg : Message) : Gemini.Content :=
  let textParts : List Gemini.Part := if msg.text ≠ "" then [Gemini.Part.text msg.text] else []
  let attParts : List Gemini.Part :=
    match msg.attachments with
    | some atts =>
        if atts.length > 0 then atts.map (fun a => Gemini.Part.inlineData a.mimeType a.data)
        else []
    | none => []
  let parts0 := textParts ++ attParts
  let parts := if parts0 = [] then [Gemini.Part.text " "] else parts0
  { role := if msg.role = Role.USER then "user" else "model", parts := parts }

/-- The sampling configuration sent with every request, from the `config`
object in `generateGeminiResponse` (src/services/geminiService.ts).
JavaScript number literals are embedded as exact rationals. -/
structure GenConfig where
  temperature : Rat
  topP : Rat
  topK : Nat
deriving DecidableEq

/-- Embeds the `config` construction in `generateGeminiResponse`:
`temperature: (ocrMode || objectDetectionMode) ? 0.2 : 0.7, topP: 0.95,
topK: 64`. -/
def requestConfig (ocrMode objectDetectionMode : Bool) : GenConfig :=
  { temperature := if ocrMode || objectDetectionMode then (2 : Rat)/10 else (7 : Rat)/10
  , topP := (95 : Rat)/100
  , topK := 64 }

/-- The message thrown by `generateGeminiResponse` when the caught error
message contains the substring 413 (oversized payload). -/
def err413 : String := "Les fichiers sont trop volumineux pour être analysés d\x27un coup."

/-- The message thrown by `generateGeminiResponse` for every other
caught error. -/
def errGeneric : String := "Une erreur est survenue lors de la communication avec l\x27IA."

/-- The fallback text returned by `generateGeminiResponse` when the API
response resolves with no text. -/
def emptyResponseFallback : String := "Désolé, je n\x27ai pas pu générer de réponse intelligible."

/-- Outcome of the underlying `ai.models.generateContent` call: it either
resolves with a response text (possibly empty) or rejects; for a
rejection the only datum `generateGeminiResponse` inspects is whether the
error message contains the substring 413. -/
inductive ApiOutcome where
  | success (text : String)
  | failure (has413 : Bool)

/-- Embeds the result mapping of `generateGeminiResponse`
(src/services/geminiService.ts): on resolution it returns
`response.text || fallback`; in its catch block it rethrows one of two
fixed strings, chosen by the 413 test. -/
def generateGeminiResponse : ApiOutcome → Except String String
  | ApiOutcome.success t =>
      Except.ok (if t ≠ "" then t else emptyResponseFallback)
  | ApiOutcome.failure has413 =>
      Except.error (if has413 then err413 else errGeneric)

/-- The React state of the `App` component (both variants of
src/App.tsx), with the `localStorage` history key mirrored in `storage`
(held at the decoded level: the stored string is always
`JSON.stringify` of a message list, see the round-trip theorem) and a
`pending` counter of outbound AI requests awaiting resolution.  Fields
that no claim mentions (refs, theme, listening flag, settings modal) are
omitted; no modeled transition reads them. -/
structure AppState where
  messages : List Message
  inputText : String
  isLoading : Bool
  attachments : List Attachment
  searchTerm : String
  isSearchActive : Bool
  ocrMode : Bool
  detectionMode : Bool
  pending : Nat
  storage : Option (List Message)
deriving DecidableEq

/-- The component state right after mount, for a startup message list
`msgs`: all flags cleared, and the persistence effect has written the
current message list to storage. -/
def initState (msgs : List Message) : AppState :=
  { messages := msgs, inputText := "", isLoading := false, attachments := []
  , searchTerm := "", isSearchActive := false, ocrMode := false
  , detectionMode := false, pending := 0, storage := some msgs }

/-- The default welcome message of the first variant of src/App.tsx. -/
def welcomeMessage1 (now : Int) : Message :=
  { id := "welcome", role := Role.MODEL
  , text := "Bonjour ! Je suis votre assistant Gemini Pro. Je peux analyser vos questions, vos images, vos vidéos et vos documents. Vous pouvez également me parler en utilisant le micro ! Comment puis-je vous aider ?"
  , attachments := none, timestamp := now }

/-- The default welcome message of the second variant of src/App.tsx. -/
def welcomeMessage2 (now : Int) : Message :=
  { id := "welcome", role := Role.MODEL
  , text := "Bonjour ! Je suis votre assistant Gemini Pro. Comment puis-je vous aider aujourd\x27hui ?"
  , attachments := none, timestamp := now }

/-- Outcome of reading and parsing the history key at startup: `none`
when no value is stored under the key, `some none` when a value is
stored but `JSON.parse` throws on it, and `some (some msgs)` when it
parses (every value this app writes parses back to a message list, see
the round-trip theorem). -/
abbrev StoredHistory := Option (Option (List Message))

/-- Embeds the `useState` initializer for `messages` in the first
variant of src/App.tsx: a parsed stored value is returned as the state
(unchecked cast); a missing value or a `JSON.parse` exception falls
through to the single default welcome message. -/
def initMessages1 (stored : StoredHistory) (now : Int) : List Message :=
  match stored with
  | some (some msgs) => msgs
  | _ => [welcomeMessage1 now]

/-- Embeds the `useState` initializer for `messages` in the second
variant of src/App.tsx. -/
def initMessages2 (stored : StoredHistory) (now : Int) : List Message :=
  match stored with
  | some (some msgs) => msgs
  | _ => [welcomeMessage2 now]

/-- The fixed error text appended by the catch block of
`handleSendMessage` in the first variant of src/App.tsx. -/
def errText1 : String := "Désolé, une erreur est survenue lors de la génération de la réponse. Vérifiez votre clé API ou votre connexion."

/-- The fixed error text appended by the catch block of
`handleSendMessage` in the second variant of src/App.tsx. -/
def errText2 : String := "Une erreur est survenue lors de la communication avec l\x27IA."

/-- Models `s.trim().length === 0` for a JavaScript string: the trimmed
string is empty exactly when every character is whitespace. -/
def jsBlank (s : String) : Bool := s.toList.all Char.isWhitespace

/-- Character-wise lowercasing, modeling `String.prototype.toLowerCase`
on the character lists this development works with. -/
def lowerList (s : String) : List Char := s.toList.map Char.toLower

/-- Prefix test on character lists (`startsWith hay needle` holds when
`needle` is an initial segment of `hay`). -/
def startsWith : List Char → List Char → Bool
  | _, [] => true
  | [], _ :: _ => false
  | a :: hay, b :: needle => a = b && startsWith hay needle

/-- Substring test on character lists, modeling
`String.prototype.includes`. -/
def containsSub : List Char → List Char → Bool
  | [], needle => needle.isEmpty
  | hay@(_ :: rest), needle => startsWith hay needle || containsSub rest needle

/-- Embeds the `filteredMessages` memo (identical in both variants of
src/App.tsx): a blank search term returns the message list unchanged;
otherwise the term is lowercased once and each message text is
lowercased and tested with `includes`. -/
def filteredMessages (messages : List Message) (searchTerm : String) : List Message :=
  if jsBlank searchTerm then messages
  else messages.filter (fun m => containsSub (lowerList m.text) (lowerList searchTerm))

/-- The search filter as the specification words it: an empty query
returns the full list, any other query keeps exactly the messages whose
text contains the query case-insensitively.  Stated for comparison with
`filteredMessages`, which is translated from src/App.tsx. -/
def claimedFilter (messages : List Message) (searchTerm : String) : List Message :=
  if searchTerm = "" then messages
  else messages.filter (fun m => containsSub (lowerList m.text) (lowerList searchTerm))

/-- The data captured by one outbound AI call: the arguments
`handleSendMessage` passes to `generateGeminiResponse`.  The `history`
field is the `messages` closure variable, which in both variants is the
list from before the user message was appended. -/
structure SendReq where
  prompt : String
  history : List Message
  attachments : List Attachment
  ocrMode : Bool
  detectionMode : Bool
deriving DecidableEq

/-- The user-turn text built by `handleSendMessage` in the first variant
of src/App.tsx: a mode tag, then the input text, with a mode-specific
fallback when the input is the empty string. -/
def mkUserText1 (s : AppState) : String :=
  let tag := if s.detectionMode then "[MODE DÉTECTION] "
             else if s.ocrMode then "[MODE OCR] " else ""
  let base := if s.inputText ≠ "" then s.inputText
              else if s.detectionMode then "Détection d\x27objets"
              else if s.ocrMode then "Extraction de texte"
              else "Analyse de fichier"
  tag ++ base

/-- The user-turn text built by `handleSendMessage` in the second
variant of src/App.tsx. -/
def mkUserText2 (s : AppState) : String :=
  let tag := if s.detectionMode then "[DÉTECTION] "
             else if s.ocrMode then "[OCR] " else ""
  let base := if s.inputText ≠ "" then s.inputText else "Analyse de fichier"
  tag ++ base

/-- The user message appended by `handleSendMessage` in the first
variant (id and timestamp from `Date.now()`). -/
def mkUserMessage1 (s : AppState) (now : Int) : Message :=
  { id := toString now, role := Role.USER, text := mkUserText1 s
  , attachments := some s.attachments, timestamp := now }

/-- The user message appended by `handleSendMessage` in the second
variant. -/
def mkUserMessage2 (s : AppState) (now : Int) : Message :=
  { id := toString now, role := Role.USER, text := mkUserText2 s
  , attachments := some s.attachments, timestamp := now }

/-- Embeds `handleSendMessage` in the first variant of src/App.tsx up to
its `await`: the busy-flag and empty-input guards, appending the user
message, snapshotting the call arguments, clearing input, attachments
and mode flags, closing the search bar, and raising the busy flag.  The
returned request is `some` exactly when the guards pass and the AI call
is issued.  The persistence effect runs with the state change, so
`storage` tracks `messages`. -/
def sendStart1 (s : AppState) (now : Int) : AppState × Option SendReq :=
  if s.isLoading then (s, none)
  else if jsBlank s.inputText && s.attachments.isEmpty then (s, none)
  else
    let msgs := s.messages ++ [mkUserMessage1 s now]
    ({ s with messages := msgs, inputText := "", attachments := []
            , isLoading := true, isSearchActive := false
            , ocrMode := false, detectionMode := false
            , pending := s.pending + 1, storage := some msgs }
    , some { prompt := s.inputText, history := s.messages
           , attachments := s.attachments, ocrMode := s.ocrMode
           , detectionMode := s.detectionMode })

/-- Embeds `handleSendMessage` in the second variant of src/App.tsx up
to its `await`.  Unlike the first variant it leaves the mode flags and
the search bar untouched. -/
def sendStart2 (s : AppState) (now : Int) : AppState × Option SendReq :=
  if s.isLoading || (jsBlank s.inputText && s.attachments.isEmpty) then (s, none)
  else
    let msgs := s.messages ++ [mkUserMessage2 s now]
    ({ s with messages := msgs, inputText := "", attachments := []
            , isLoading := true
            , pending := s.pending + 1, storage := some msgs }
    , some { prompt := s.inputText, history := s.messages
           , attachments := s.attachments, ocrMode := s.ocrMode
           , detectionMode := s.detectionMode })

/-- Embeds the continuation of `handleSendMessage` in the first variant
of src/App.tsx: on resolution the response text is appended as a model
turn, on rejection the fixed error text is appended as a model turn, and
the finally block lowers the busy flag.  The catch block ignores the
thrown value. -/
def sendFinish1 (s : AppState) (now : Int) : Except String String → AppState
  | outcome =>
    let text := match outcome with
      | Except.ok t => t
      | Except.error _ => errText1
    let msgs := s.messages ++
      [{ id := toString (now + 1), role := Role.MODEL, text := text
       , attachments := none, timestamp := now }]
    { s with messages := msgs, isLoading := false
           , pending := s.pending - 1, storage := some msgs }

/-- Embeds the continuation of `handleSendMessage` in the second variant
of src/App.tsx; only the fixed error text differs. -/
def sendFinish2 (s : AppState) (now : Int) : Except String String → AppState
  | outcome =>
    let text := match outcome with
      | Except.ok t => t
      | Except.error _ => errText2
    let msgs := s.messages ++
      [{ id := toString (now + 1), role := Role.MODEL, text := text
       , attachments := none, timestamp := now }]
    { s with messages := msgs, isLoading := false
           , pending := s.pending - 1, storage := some msgs }

/-- Embeds `clearHistory` in the first variant of src/App.tsx, for the
confirmed case: one fresh welcome message replaces the history, search
state is reset, and the persistence effect rewrites storage. -/
def clearHistory1 (s : AppState) (now : Int) : AppState :=
  let msgs := [{ id := "welcome-" ++ toString now, role := Role.MODEL
               , text := "Historique effacé. Je suis prêt pour une nouvelle discussion !"
               , attachments := none, timestamp := now } ]
  { s with messages := msgs, searchTerm := "", isSearchActive := false
         , storage := some msgs }

/-- One UI event of the first variant of src/App.tsx, as a transition on
the modeled state.  Each constructor embeds one handler: typing in the
textarea, file upload, attachment removal, the two mode toggle buttons,
the search input and its open and close buttons, confirmed history
clearing, a send attempt, and the resolution of an in-flight send (which
only exists while the busy flag is raised). -/
inductive Step1 : AppState → AppState → Prop
  | setInput (s : AppState) (v : String) :
      Step1 s { s with inputText := v }
  | upload (s : AppState) (added : List Attachment) :
      Step1 s { s with attachments := s.attachments ++ added }
  | removeAtt (s : AppState) (idx : Nat) :
      Step1 s { s with attachments := s.attachments.eraseIdx idx }
  | toggleDetect (s : AppState) :
      Step1 s { s with detectionMode := !s.detectionMode, ocrMode := false }
  | toggleOcr (s : AppState) :
      Step1 s { s with ocrMode := !s.ocrMode, detectionMode := false }
  | setSearch (s : AppState) (v : String) :
      Step1 s { s with searchTerm := v }
  | openSearch (s : AppState) :
      Step1 s { s with isSearchActive := true }
  | closeSearch (s : AppState) :
      Step1 s { s with isSearchActive := false, searchTerm := "" }
  | clearHist (s : AppState) (now : Int) :
      Step1 s (clearHistory1 s now)
  | send (s : AppState) (now : Int) :
      Step1 s (sendStart1 s now).1
  | finish (s : AppState) (now : Int) (outcome : Except String String)
      (h : s.isLoading = true) :
      Step1 s (sendFinish1 s now outcome)

/-- One UI event of the second variant of src/App.tsx.  The second
variant has no confirmed-clear transition that keeps the session alive
(its clear button reloads the page, which is a fresh start state). -/
inductive Step2 : AppState → AppState → Prop
  | setInput (s : AppState) (v : String) :
      Step2 s { s with inputText := v }
  | upload (s : AppState) (added : List Attachment) :
      Step2 s { s with attachments := s.attachments ++ added }
  | toggleDetect (s : AppState) :
      Step2 s { s with detectionMode := !s.detectionMode, ocrMode := false }
  | toggleOcr (s : AppState) :
      Step2 s { s with ocrMode := !s.ocrMode, detectionMode := false }
  | setSearch (s : AppState) (v : String) :
      Step2 s { s with searchTerm := v }
  | openSearch (s : AppState) :
      Step2 s { s with isSearchActive := true }
  | closeSearch (s : AppState) :
      Step2 s { s with isSearchActive := false, searchTerm := "" }
  | send (s : AppState) (now : Int) :
      Step2 s (sendStart2 s now).1
  | finish (s : AppState) (now : Int) (outcome : Except String String)
      (h : s.isLoading = true) :
      Step2 s (sendFinish2 s now outcome)

/-- States of the first variant reachable from some startup state. -/
inductive Reachable1 : AppState → Prop
  | init (msgs : List Message) : Reachable1 (initState msgs)
  | step {s t : AppState} : Reachable1 s → Step1 s t → Reachable1 t

/-- States of the second variant reachable from some startup state. -/
inductive Reachable2 : AppState → Prop
  | init (msgs : List Message) : Reachable2 (initState msgs)
  | step {s t : AppState} : Reachable2 s → Step2 s t → Reachable2 t

/-- The combined busy-flag and mode-flag invariant maintained by both
variants: the busy flag is raised exactly while one request is in
flight, never more than one request is in flight, and the two mode flags
are never both set. -/
def AppInv (s : AppState) : Prop :=
  s.pending ≤ 1 ∧ (s.isLoading = true ↔ s.pending = 1) ∧
    ¬(s.ocrMode = true ∧ s.detectionMode = true)

theorem decodeAttachment_encodeAttachment (a : Attachment) :
    decodeAttachment (encodeAttachment a) = some a := by
  simp [decodeAttachment, encodeAttachment, getField]

theorem decodeAttachments_map (atts : List Attachment) :
    decodeAttachments (atts.map encodeAttachment) = some atts := by
  induction atts with
  | nil => rfl
  | cons a rest ih =>
      simp [List.map_cons, decodeAttachments, decodeAttachment_encodeAttachment, ih]

theorem decodeMessage_encodeMessage (m : Message) :
    decodeMessage (encodeMessage m) = some m := by
  cases m with
  | mk i r t atts ts =>
    cases atts with
    | none =>
        cases r <;>
          simp [decodeMessage, encodeMessage, getField, encodeRole, decodeRole]
    | some l =>
        cases r <;>
          simp [decodeMessage, encodeMessage, getField, encodeRole, decodeRole,
            decodeAttachments_map]

/-- C1: serializing the message list to the stored JSON value (what
`JSON.stringify` writes to the history key on every change to the
messages state) and reinterpreting the parsed value as a message list at
startup (what `JSON.parse` plus the unchecked cast yields) gives back
the same sequence of messages, field for field.  Stated for every
message list, which covers every list reachable by the app. -/
theorem stored_messages_roundtrip :
    ∀ msgs : List Message, decodeMessages (encodeMessages msgs) = some msgs := by
  intro msgs
  have h : ∀ l : List Message,
      decodeMessages.decodeMessagesList (l.map encodeMessage) = some l := by
    intro l
    induction l with
    | nil => rfl
    | cons m rest ih =>
        simp [List.map_cons, decodeMessages.decodeMessagesList,
          decodeMessage_encodeMessage, ih]
  simp [decodeMessages, encodeMessages, h]

theorem step1_inv {s t : AppState} (hs : Step1 s t) (ih : AppInv s) : AppInv t := by
  obtain ⟨hp, hiff, hex⟩ := ih
  cases hs with
  | setInput v => exact ⟨hp, hiff, hex⟩
  | upload added => exact ⟨hp, hiff, hex⟩
  | removeAtt idx => exact ⟨hp, hiff, hex⟩
  | toggleDetect => exact ⟨hp, hiff, by simp⟩
  | toggleOcr => exact ⟨hp, hiff, by simp⟩
  | setSearch v => exact ⟨hp, hiff, hex⟩
  | openSearch => exact ⟨hp, hiff, hex⟩
  | closeSearch => exact ⟨hp, hiff, hex⟩
  | clearHist now => exact ⟨hp, hiff, hex⟩
  | send now =>
      unfold sendStart1
      split
      · exact ⟨hp, hiff, hex⟩
      · split
        · exact ⟨hp, hiff, hex⟩
        · rename_i hL hG
          have hne : s.pending ≠ 1 := fun hc => hL (hiff.mpr hc)
          have hpz : s.pending = 0 := by omega
          simp [AppInv, hpz]
  | finish now outcome hL =>
      have hp1 := hiff.mp hL
      refine ⟨by simp [sendFinish1, hp1], by simp [sendFinish1, hp1], ?_⟩
      simpa [sendFinish1] using hex

theorem step2_inv {s t : AppState} (hs : Step2 s t) (ih : AppInv s) : AppInv t := by
  obtain ⟨hp, hiff, hex⟩ := ih
  cases hs with
  | setInput v => exact ⟨hp, hiff, hex⟩
  | upload added => exact ⟨hp, hiff, hex⟩
  | toggleDetect => exact ⟨hp, hiff, by simp⟩
  | toggleOcr => exact ⟨hp, hiff, by simp⟩
  | setSearch v => exact ⟨hp, hiff, hex⟩
  | openSearch => exact ⟨hp, hiff, hex⟩
  | closeSearch => exact ⟨hp, hiff, hex⟩
  | send now =>
      unfold sendStart2
      split
      · exact ⟨hp, hiff, hex⟩
      · rename_i hG
        have hL : ¬s.isLoading = true := fun hc => hG (by simp [hc])
        have hne : s.pending ≠ 1 := fun hc => hL (hiff.mpr hc)
        have hpz : s.pending = 0 := by omega
        refine ⟨by simp [hpz], by simp [hpz], by simpa using hex⟩
  | finish now outcome hL =>
      have hp1 := hiff.mp hL
      refine ⟨by simp [sendFinish2, hp1], by simp [sendFinish2, hp1], ?_⟩
      simpa [sendFinish2] using hex

theorem reachable1_inv : ∀ s, Reachable1 s → AppInv s := by
  intro s h
  induction h with
  | init msgs => simp [AppInv, initState]
  | step hr hs ih => exact step1_inv hs ih

theorem reachable2_inv : ∀ s, Reachable2 s → AppInv s := by
  intro s h
  induction h with
  | init msgs => simp [AppInv, initState]
  | step hr hs ih => exact step2_inv hs ih

/-- C2: in both variants of src/App.tsx, at most one outbound AI request
is in flight in any reachable state, and while a send is pending (the
busy flag `isLoading` is set) every further invocation of
`handleSendMessage` leaves the state untouched and issues no request, so
nothing is queued or retried. -/
theorem single_request_in_flight :
    (∀ s, Reachable1 s → s.pending ≤ 1 ∧
      (s.isLoading = true → ∀ now, sendStart1 s now = (s, none))) ∧
    (∀ s, Reachable2 s → s.pending ≤ 1 ∧
      (s.isLoading = true → ∀ now, sendStart2 s now = (s, none))) := by
  constructor
  · intro s hr
    obtain ⟨hp, _, _⟩ := reachable1_inv s hr
    refine ⟨hp, fun hL now => ?_⟩
    simp [sendStart1, hL]
  · intro s hr
    obtain ⟨hp, _, _⟩ := reachable2_inv s hr
    refine ⟨hp, fun hL now => ?_⟩
    simp [sendStart2, hL]

/-- A reachable busy state of the first variant: type a message, then
send it. -/
def busyState1 : AppState := (sendStart1 { initState [] with inputText := "salut" } 3).1

/-- Witness for C2 at a concrete reachable busy state. -/
theorem single_request_in_flight_witness :
    (busyState1.pending ≤ 1 ∧
      (busyState1.isLoading = true → ∀ now, sendStart1 busyState1 now = (busyState1, none))) ∧
      sendStart1 busyState1 7 = (busyState1, none) := by
  have hr : Reachable1 busyState1 :=
    Reachable1.step
      (Reachable1.step (Reachable1.init []) (Step1.setInput (initState []) "salut"))
      (Step1.send { initState [] with inputText := "salut" } 3)
  have h := single_request_in_flight.1 busyState1 hr
  exact ⟨h, h.2 (by decide) 7⟩

/-- C3 (amended): in every reachable state of either variant the OCR and
object-detection flags are never both set, and in the first variant both
flags are reset to false by every send that passes the send guard.  The
second variant leaves the flags untouched on send, see the
counterexample. -/
theorem mode_flags_exclusive :
    ((∀ s, Reachable1 s → ¬(s.ocrMode = true ∧ s.detectionMode = true)) ∧
     (∀ s, Reachable2 s → ¬(s.ocrMode = true ∧ s.detectionMode = true))) ∧
    (∀ s now t req, sendStart1 s now = (t, some req) →
      t.ocrMode = false ∧ t.detectionMode = false) := by
  refine ⟨⟨fun s hr => (reachable1_inv s hr).2.2, fun s hr => (reachable2_inv s hr).2.2⟩, ?_⟩
  intro s now t req h
  unfold sendStart1 at h
  split at h
  · simp at h
  · split at h
    · simp at h
    · rw [Prod.mk.injEq] at h
      obtain ⟨ht, _⟩ := h
      subst ht
      exact ⟨rfl, rfl⟩

/-- Witness for C3 at a concrete reachable state and guarded send. -/
theorem mode_flags_exclusive_witness :
    (¬(busyState1.ocrMode = true ∧ busyState1.detectionMode = true)) ∧
      ((sendStart1 { initState [] with inputText := "salut" } 3).1.ocrMode = false ∧
       (sendStart1 { initState [] with inputText := "salut" } 3).1.detectionMode = false) := by
  have hr : Reachable1 busyState1 :=
    Reachable1.step
      (Reachable1.step (Reachable1.init []) (Step1.setInput (initState []) "salut"))
      (Step1.send { initState [] with inputText := "salut" } 3)
  refine ⟨mode_flags_exclusive.1.1 busyState1 hr, ?_⟩
  exact mode_flags_exclusive.2 { initState [] with inputText := "salut" } 3
    (sendStart1 { initState [] with inputText := "salut" } 3).1
    { prompt := "salut", history := [], attachments := []
    , ocrMode := false, detectionMode := false }
    (by decide)

/-- A reachable state of the second variant with the OCR flag on and a
nonempty input: toggle OCR, then type a message. -/
def ocrOnState2 : AppState := { initState [] with inputText := "salut", ocrMode := true }

/-- C3 counterexample: in the second variant of src/App.tsx a send that
passes the send guard (a request is issued) leaves the OCR flag set, so
the flags are not reset to false after every guarded send. -/
theorem mode_flags_reset_counterexample :
    Reachable2 ocrOnState2 ∧
    ((sendStart2 ocrOnState2 3).2).isSome = true ∧
    ((sendStart2 ocrOnState2 3).1).ocrMode = true := by
  refine ⟨?_, by decide, by decide⟩
  exact Reachable2.step
    (Reachable2.step (Reachable2.init []) (Step2.toggleOcr (initState [])))
    (Step2.setInput { initState [] with ocrMode := true, detectionMode := false } "salut")

/-- C4: in both variants of src/App.tsx, invoking `handleSendMessage`
with a blank (all-whitespace, hence empty after trimming) input text and
no attachments is a no-op: the whole state, including the message list,
attachments, input text, mode flags, loading flag and stored history, is
unchanged and no AI request is issued. -/
theorem empty_send_noop :
    ∀ s now, jsBlank s.inputText = true → s.attachments = [] →
      sendStart1 s now = (s, none) ∧ sendStart2 s now = (s, none) := by
  intro s now hb ha
  constructor
  · unfold sendStart1
    split
    · rfl
    · rw [if_pos (by simp [hb, ha])]
  · unfold sendStart2
    rw [if_pos (by simp [hb, ha])]

/-- Witness for C4 at a concrete state with a whitespace-only input. -/
theorem empty_send_noop_witness :
    (jsBlank ({ initState [] with inputText := "  " } : AppState).inputText = true ∧
     ({ initState [] with inputText := "  " } : AppState).attachments = []) ∧
    (sendStart1 { initState [] with inputText := "  " } 3 =
        ({ initState [] with inputText := "  " }, none) ∧
     sendStart2 { initState [] with inputText := "  " } 3 =
        ({ initState [] with inputText := "  " }, none)) :=
  ⟨⟨by decide, by decide⟩,
   empty_send_noop { initState [] with inputText := "  " } 3 (by decide) (by decide)⟩

theorem startsWith_iff (hay needle : List Char) :
    startsWith hay needle = true ↔ ∃ rest, hay = needle ++ rest := by
  induction needle generalizing hay with
  | nil => simp [startsWith]
  | cons b bs ih =>
      cases hay with
      | nil => simp [startsWith]
      | cons a hay2 =>
          simp only [startsWith, Bool.and_eq_true, decide_eq_true_eq, ih, List.cons_append,
            List.cons.injEq]
          constructor
          · rintro ⟨rfl, rest, rfl⟩
            exact ⟨rest, rfl, rfl⟩
          · rintro ⟨rest, rfl, rfl⟩
            exact ⟨rfl, rest, rfl⟩

theorem containsSub_iff (hay needle : List Char) :
    containsSub hay needle = true ↔ ∃ l r, hay = l ++ needle ++ r := by
  induction hay with
  | nil =>
      simp only [containsSub, List.isEmpty_iff]
      constructor
      · rintro rfl
        exact ⟨[], [], rfl⟩
      · rintro ⟨l, r, h⟩
        rcases List.append_eq_nil.mp (List.append_eq_nil.mp h.symm).1 with ⟨_, h2⟩
        exact h2
  | cons a rest ih =>
      simp only [containsSub, Bool.or_eq_true, startsWith_iff, ih]
      constructor
      · rintro (⟨r, hr⟩ | ⟨l, r, hr⟩)
        · exact ⟨[], r, by simp [hr]⟩
        · exact ⟨a :: l, r, by simp [hr]⟩
      · rintro ⟨l, r, hr⟩
        cases l with
        | nil =>
            left
            exact ⟨r, by simpa using hr⟩
        | cons x l2 =>
            right
            rw [List.cons_append, List.cons_append, List.cons.injEq] at hr
            exact ⟨l2, r, hr.2⟩

/-- A message whose text does not contain a space. -/
def nospaceMsg : Message :=
  { id := "1", role := Role.MODEL, text := "ab", attachments := none, timestamp := 0 }

/-- C5 counterexample: for the nonempty whitespace-only query, the app
returns the full message list, while the claimed filter (empty query
means full list, any other query filters by case-insensitive substring)
drops a message whose text does not contain the query.  The search
filter of src/App.tsx therefore differs from the claim at this input. -/
theorem search_filter_counterexample :
    filteredMessages [nospaceMsg] " " ≠ claimedFilter [nospaceMsg] " " ∧
    filteredMessages [nospaceMsg] " " = [nospaceMsg] ∧
    claimedFilter [nospaceMsg] " " = [] := by
  refine ⟨?_, by decide, by decide⟩
  decide

/-- C5 (amended): the search filter is a pure function of the message
list and the query; a query that is empty after trimming (empty or
whitespace-only) returns the full list unchanged, and any other query
keeps, in their original order, exactly the messages whose lowercased
text contains the lowercased (untrimmed) query as a substring. -/
theorem search_filter_correct :
    ∀ msgs q,
      (filteredMessages msgs q).Sublist msgs ∧
      (jsBlank q = true → filteredMessages msgs q = msgs) ∧
      (jsBlank q = false → ∀ m, m ∈ filteredMessages msgs q ↔
        m ∈ msgs ∧ ∃ l r, lowerList m.text = l ++ lowerList q ++ r) := by
  intro msgs q
  refine ⟨?_, fun hb => by simp [filteredMessages, hb], fun hb m => ?_⟩
  · unfold filteredMessages
    split
    · exact List.Sublist.refl msgs
    · exact List.filter_sublist msgs
  · simp [filteredMessages, hb, List.mem_filter, containsSub_iff]

/-- Witness for C5 at a concrete nonblank query. -/
theorem search_filter_correct_witness :
    (jsBlank "AB" = false) ∧
    (filteredMessages [nospaceMsg] "AB").Sublist [nospaceMsg] ∧
    (nospaceMsg ∈ filteredMessages [nospaceMsg] "AB" ↔
      nospaceMsg ∈ [nospaceMsg] ∧ ∃ l r, lowerList nospaceMsg.text = l ++ lowerList "AB" ++ r) :=
  ⟨by decide, (search_filter_correct [nospaceMsg] "AB").1,
    (search_filter_correct [nospaceMsg] "AB").2.2 (by decide) nospaceMsg⟩

/-- C6: when the AI call rejects, `generateGeminiResponse` rethrows one
of its two fixed strings (chosen by the 413 test), and each variant of
`handleSendMessage` catches every rejection, appends its fixed
user-facing error string to the conversation as a model turn, lowers the
busy flag, and returns normally, so no error propagates further.  Both
appended strings are constants, independent of the state and of the
thrown error. -/
theorem ai_error_surfaced :
    (∀ has413, generateGeminiResponse (ApiOutcome.failure has413) =
        Except.error (if has413 then err413 else errGeneric)) ∧
    (∀ s now e,
      (sendFinish1 s now (Except.error e)).messages =
          s.messages ++ [{ id := toString (now + 1), role := Role.MODEL
                         , text := errText1, attachments := none, timestamp := now }] ∧
      (sendFinish1 s now (Except.error e)).isLoading = false) ∧
    (∀ s now e,
      (sendFinish2 s now (Except.error e)).messages =
          s.messages ++ [{ id := toString (now + 1), role := Role.MODEL
                         , text := errText2, attachments := none, timestamp := now }] ∧
      (sendFinish2 s now (Except.error e)).isLoading = false) ∧
    errText1 ∈ [errText1, errText2] ∧ errText2 ∈ [errText1, errText2] := by
  refine ⟨fun has413 => rfl, fun s now e => ⟨rfl, rfl⟩, fun s now e => ⟨rfl, rfl⟩, ?_, ?_⟩
  · simp
  · simp

/-- C7: if no value is stored under the history key, or the stored
string makes `JSON.parse` throw, the messages initializer of either
variant silently discards the failure and starts with a single default
welcome message whose role is the model role; a stored value that parses
is returned as the history unchanged. -/
theorem startup_default_welcome :
    ∀ now,
      (initMessages1 none now = [welcomeMessage1 now] ∧
       initMessages1 (some none) now = [welcomeMessage1 now] ∧
       (welcomeMessage1 now).role = Role.MODEL ∧
       (∀ msgs, initMessages1 (some (some msgs)) now = msgs)) ∧
      (initMessages2 none now = [welcomeMessage2 now] ∧
       initMessages2 (some none) now = [welcomeMessage2 now] ∧
       (welcomeMessage2 now).role = Role.MODEL ∧
       (∀ msgs, initMessages2 (some (some msgs)) now = msgs)) := by
  intro now
  exact ⟨⟨rfl, rfl, rfl, fun msgs => rfl⟩, ⟨rfl, rfl, rfl, fun msgs => rfl⟩⟩

/-- C8 counterexample: the sampling parameters sent with a request do
not all vary by mode — topP and topK are identical with and without an
active mode flag, so the claim that each of temperature, topP and topK
differs between the two cases is false. -/
theorem sampling_variation_counterexample :
    (requestConfig true false).topP = (requestConfig false false).topP ∧
    (requestConfig false true).topP = (requestConfig false false).topP ∧
    (requestConfig true false).topK = (requestConfig false false).topK ∧
    (requestConfig false true).topK = (requestConfig false false).topK := by
  refine ⟨rfl, rfl, rfl, rfl⟩

/-- C8 (amended): of the sampling parameters carried by every outbound
request, only the temperature varies by mode — it is 0.2 whenever the
OCR or the object-detection flag is active and 0.7 otherwise, so the two
cases differ — while topP (0.95) and topK (64) are the same for every
mode combination. -/
theorem sampling_config_by_mode :
    ∀ o d : Bool,
      ((o || d) = true →
        (requestConfig o d).temperature ≠ (requestConfig false false).temperature ∧
        (requestConfig o d).temperature = (2 : Rat)/10) ∧
      ((o || d) = false → (requestConfig o d).temperature = (7 : Rat)/10) ∧
      (requestConfig o d).topP = (requestConfig false false).topP ∧
      (requestConfig o d).topK = (requestConfig false false).topK ∧
      (requestConfig false false).temperature = (7 : Rat)/10 ∧
      (requestConfig o d).topP = (95 : Rat)/100 ∧
      (requestConfig o d).topK = 64 := by
  intro o d
  have hneq : (2 : Rat)/10 ≠ (7 : Rat)/10 := by norm_num
  cases o <;> cases d
  · exact ⟨fun h => Bool.noConfusion h, fun _ => rfl, rfl, rfl, rfl, rfl, rfl⟩
  · exact ⟨fun _ => ⟨hneq, rfl⟩, fun h => Bool.noConfusion h, rfl, rfl, rfl, rfl, rfl⟩
  · exact ⟨fun _ => ⟨hneq, rfl⟩, fun h => Bool.noConfusion h, rfl, rfl, rfl, rfl, rfl⟩
  · exact ⟨fun _ => ⟨hneq, rfl⟩, fun h => Bool.noConfusion h, rfl, rfl, rfl, rfl, rfl⟩

/-- Witness for C8 with the OCR mode flag active. -/
theorem sampling_config_by_mode_witness :
    ((true || false) = true) ∧
    ((requestConfig true false).temperature ≠ (requestConfig false false).temperature ∧
      (requestConfig true false).temperature = (2 : Rat)/10) :=
  ⟨rfl, (sampling_config_by_mode true false).1 rfl⟩

/-- C9: for every message, the Content produced by
`formatMessageToContent` has at least one part, and a message with empty
text and no attachments (an absent or empty attachment list) produces
exactly the single placeholder text part, so the request formatter never
emits an empty parts list. -/
theorem format_message_nonempty_parts :
    ∀ m : Message,
      (formatMessageToContent m).parts ≠ [] ∧
      (m.text = "" → m.attachments = none ∨ m.attachments = some [] →
        (formatMessageToContent m).parts = [Gemini.Part.text " "]) := by
  intro m
  have hgen : ∀ l : List Gemini.Part, (if l = [] then [Gemini.Part.text " "] else l) ≠ [] := by
    intro l
    split
    · simp
    · assumption
  refine ⟨?_, fun ht ha => ?_⟩
  · simp only [formatMessageToContent]
    exact hgen _
  · rcases ha with h | h <;> simp [formatMessageToContent, ht, h]

/-- A message with empty text and no attachments field. -/
def emptyMsg : Message :=
  { id := "e", role := Role.USER, text := "", attachments := none, timestamp := 0 }

/-- Witness for C9 at a concrete empty message. -/
theorem format_message_nonempty_parts_witness :
    (emptyMsg.text = "" ∧ (emptyMsg.attachments = none ∨ emptyMsg.attachments = some [])) ∧
    ((formatMessageToContent emptyMsg).parts ≠ [] ∧
      (formatMessageToContent emptyMsg).parts = [Gemini.Part.text " "]) :=
  ⟨⟨rfl, Or.inl rfl⟩,
   (format_message_nonempty_parts emptyMsg).1,
   (format_message_nonempty_parts emptyMsg).2 rfl (Or.inl rfl)⟩

/-- C10 counterexample: in the second variant of src/App.tsx the mode
flags are not cleared by a send at all — after a guarded send that fails,
the OCR flag is still set — so the claim that the cleared mode flags
remain cleared (false) at the end of a failed send does not hold there. -/
theorem failed_send_rollback_counterexample :
    Reachable2 ocrOnState2 ∧
    ((sendStart2 ocrOnState2 3).2).isSome = true ∧
    (sendFinish2 (sendStart2 ocrOnState2 3).1 5 (Except.error "x")).ocrMode = true := by
  refine ⟨?_, by decide, by decide⟩
  exact Reachable2.step
    (Reachable2.step (Reachable2.init []) (Step2.toggleOcr (initState [])))
    (Step2.setInput { initState [] with ocrMode := true, detectionMode := false } "salut")

/-- C10 (amended): a failed send is not atomic in either variant: the
user message stays appended and persisted, the cleared input text and
attachments are not restored, the fixed error message is appended as an
additional model turn, and the only state rolled back is the loading
flag.  In the first variant the mode flags, cleared by the send, also
stay cleared; in the second variant the send never touches them. -/
theorem failed_send_not_atomic :
    (∀ s now now2 e t req, sendStart1 s now = (t, some req) →
      (sendFinish1 t now2 (Except.error e)).messages =
          s.messages ++ [mkUserMessage1 s now,
            { id := toString (now2 + 1), role := Role.MODEL, text := errText1
            , attachments := none, timestamp := now2 }] ∧
      (sendFinish1 t now2 (Except.error e)).inputText = "" ∧
      (sendFinish1 t now2 (Except.error e)).attachments = [] ∧
      (sendFinish1 t now2 (Except.error e)).ocrMode = false ∧
      (sendFinish1 t now2 (Except.error e)).detectionMode = false ∧
      (sendFinish1 t now2 (Except.error e)).isLoading = false ∧
      (sendFinish1 t now2 (Except.error e)).storage =
          some (sendFinish1 t now2 (Except.error e)).messages) ∧
    (∀ s now now2 e t req, sendStart2 s now = (t, some req) →
      (sendFinish2 t now2 (Except.error e)).messages =
          s.messages ++ [mkUserMessage2 s now,
            { id := toString (now2 + 1), role := Role.MODEL, text := errText2
            , attachments := none, timestamp := now2 }] ∧
      (sendFinish2 t now2 (Except.error e)).inputText = "" ∧
      (sendFinish2 t now2 (Except.error e)).attachments = [] ∧
      (sendFinish2 t now2 (Except.error e)).ocrMode = s.ocrMode ∧
      (sendFinish2 t now2 (Except.error e)).detectionMode = s.detectionMode ∧
      (sendFinish2 t now2 (Except.error e)).isLoading = false ∧
      (sendFinish2 t now2 (Except.error e)).storage =
          some (sendFinish2 t now2 (Except.error e)).messages) := by
  constructor
  · intro s now now2 e t req h
    unfold sendStart1 at h
    split at h
    · simp at h
    · split at h
      · simp at h
      · rw [Prod.mk.injEq] at h
        obtain ⟨ht, _⟩ := h
        subst ht
        refine ⟨?_, rfl, rfl, rfl, rfl, rfl, rfl⟩
        simp [sendFinish1]
  · intro s now now2 e t req h
    unfold sendStart2 at h
    split at h
    · simp at h
    · rw [Prod.mk.injEq] at h
      obtain ⟨ht, _⟩ := h
      subst ht
      refine ⟨?_, rfl, rfl, rfl, rfl, rfl, rfl⟩
      simp [sendFinish2]

/-- A state of the first variant with a typed message, ready to send. -/
def typedState1 : AppState := { initState [] with inputText := "salut" }

/-- The request issued by sending from `typedState1`. -/
def typedReq1 : SendReq :=
  { prompt := "salut", history := [], attachments := []
  , ocrMode := false, detectionMode := false }

/-- Witness for C10 at a concrete failed send of the first variant. -/
theorem failed_send_not_atomic_witness :
    sendStart1 typedState1 3 = ((sendStart1 typedState1 3).1, some typedReq1) ∧
    ((sendFinish1 (sendStart1 typedState1 3).1 5 (Except.error "x")).messages =
        typedState1.messages ++ [mkUserMessage1 typedState1 3,
          { id := toString ((5 : Int) + 1), role := Role.MODEL, text := errText1
          , attachments := none, timestamp := 5 }] ∧
      (sendFinish1 (sendStart1 typedState1 3).1 5 (Except.error "x")).inputText = "" ∧
      (sendFinish1 (sendStart1 typedState1 3).1 5 (Except.error "x")).attachments = [] ∧
      (sendFinish1 (sendStart1 typedState1 3).1 5 (Except.error "x")).ocrMode = false ∧
      (sendFinish1 (sendStart1 typedState1 3).1 5 (Except.error "x")).detectionMode = false ∧
      (sendFinish1 (sendStart1 typedState1 3).1 5 (Except.error "x")).isLoading = false ∧
      (sendFinish1 (sendStart1 typedState1 3).1 5 (Except.error "x")).storage =
          some (sendFinish1 (sendStart1 typedState1 3).1 5 (Except.error "x")).messages) :=
  ⟨by decide, failed_send_not_atomic.1 typedState1 3 5 "x"
      (sendStart1 typedState1 3).1 typedReq1 (by decide)⟩
